import Mathlib

/-!
Verification development for the nodejs-dashboard UI core.

The definitions below are shallow embeddings of the JavaScript sources:

* `lib/views/platform-details-view.js` — the environment-variable
  filter (`getEnvDetails`), the filter setter
  (`setEnvironmentVariablesFilter` / `onEnvironmentVariablesFilterChange`);
* `lib/views/base-input-dialog-view.js` — keypress cleansing
  (`cleanseKeypress`), the form submit handler with its 3000 ms
  error-hide timer, `toggle` / `hide` / `isVisible`;
* `lib/views/base-view.js` — resize subscription, `destroy`,
  `listenGlobalKeys`;
* `lib/views/goto-time-view.js` — the goto-time `toggle` override;
* `lib/dashboard.js` — `_showLayout`.

Strings are modelled as `List Char` where character-level processing
matters (regular-expression escaping, control-character stripping),
and as `String` for opaque identifiers (key names, labels).
JavaScript regular expressions built by the views are modelled by a
small pattern language (`RAtom`/`RTok`) with an explicit parser and
backtracking matcher; `new RegExp(p, "i").test(s)` for an escaped
pattern `p` is shown to coincide with case-insensitive substring
search.
-/

/-- One (label, value) row of the details boxes.  In the source a row is
the object `{label: key, data: value}` built from `process.env`. -/
structure DetailRow where
  label : List Char
  data : List Char
deriving DecidableEq, Repr

/-- Case folding applied by the `"i"` regular-expression flag: compare
characters lower-cased. -/
def lowerStr (s : List Char) : List Char :=
  s.map Char.toLower

/-- `isPrefixList n h` is true when `n` is a prefix of `h`
(character-for-character). -/
def isPrefixList : List Char → List Char → Bool
  | [], _ => true
  | _ :: _, [] => false
  | a :: as, b :: bs => a == b && isPrefixList as bs

/-- `containsSub n h` is true when `n` occurs as a contiguous substring
of `h`. -/
def containsSub : List Char → List Char → Bool
  | n, [] => isPrefixList n []
  | n, c :: t => isPrefixList n (c :: t) || containsSub n t

/-- Semantics of `new RegExp(_.escapeRegExp(term), "i").test(s)`: the
term occurs in `s` up to case. -/
def termMatches (term s : List Char) : Bool :=
  containsSub (lowerStr term) (lowerStr s)

/-- The row predicate inside `getEnvDetails`
(platform-details-view.js:340-351): a row survives when every filter
term is either empty (falsy) or matches the label or the value under
the escaped, case-insensitive pattern. -/
def rowKept (filters : List (List Char)) (row : DetailRow) : Bool :=
  filters.all fun f =>
    if f.isEmpty then true
    else f.isEmpty || termMatches f row.label || termMatches f row.data

/-- `getEnvDetails` (platform-details-view.js:334-352) restricted to its
pure part: the environment rows are taken as a parameter instead of
being read from `process.env`, and the lodash `_.filter` keeps exactly
the rows satisfying `rowKept`. -/
def getEnvDetails (filters : List (List Char)) (env : List DetailRow) : List DetailRow :=
  env.filter (rowKept filters)

/-- The claim-side reading of the filter: every non-empty term matches,
case-insensitively, the label or the value. -/
def specKeeps (filters : List (List Char)) (row : DetailRow) : Prop :=
  ∀ t ∈ filters, t ≠ [] → (termMatches t row.label = true ∨ termMatches t row.data = true)

/-! ### Regular-expression model (claim C2)

`getEnvDetails` builds `new RegExp(_.escapeRegExp(filter), "i")` and
calls `.test`.  The JavaScript regular-expression engine is external;
the fragment reachable from this code is modelled by `parseRegex` /
`regexTest` below: literal characters, the `.` wildcard and the `*`
quantifier.  Constructs the model does not interpret (bare `+ ? ( ) [ ]
braces | ^ $`, dangling `\`) are conservatively mapped to `none`
("compilation does not yield a plain literal pattern"); none of them
survive `escapeRegExp`, so the theorems about escaped terms never meet
those cases. -/

/-- The characters escaped by lodash's `_.escapeRegExp`
(`/[\\^$.*+?()[\]{}|]/g`, replacement `"\\$&"`). -/
def regexSpecials : List Char :=
  ['\\', '^', '$', '.', '*', '+', '?', '(', ')', '[', ']', '\x7b', '\x7d', '|']

/-- `_.escapeRegExp`: prefix every pattern-special character with a
backslash. -/
def escapeRegExp : List Char → List Char
  | [] => []
  | c :: rest => (if c ∈ regexSpecials then ['\\', c] else [c]) ++ escapeRegExp rest

/-- The character class of the older copy's hand-rolled escape
(part_003:583): `[-[\]{}()*+?.,\\^$|#\s]` (with the ASCII part of
`\s`). -/
def brokenEscapeClass : List Char :=
  ['-', '[', ']', '\x7b', '\x7d', '(', ')', '*', '+', '?', '.', ',', '\\',
   '^', '$', '|', '#', ' ', '\t', '\n', '\r', '\x0b', '\x0c']

/-- The escape of the older platform-details-view copy
(part_003:581-597): `filter.replace(/[-[\]{}()*+?.,\\^$|#\s]/g, "\\$")`.
The JavaScript replacement string `"\\$"` denotes the two literal
characters `\$` — the `$&` back-reference to the matched character is
missing — so every special character is *replaced by* `\$` rather than
escaped. -/
def escapeRegExpBroken : List Char → List Char
  | [] => []
  | c :: rest => (if c ∈ brokenEscapeClass then ['\\', '$'] else [c]) ++ escapeRegExpBroken rest

/-- A single-character regular-expression atom. -/
inductive RAtom where
  | lit (c : Char)
  | anyChar
deriving DecidableEq, Repr

/-- A pattern token: an atom, or an atom under the `*` quantifier. -/
inductive RTok where
  | atom (a : RAtom)
  | star (a : RAtom)
deriving DecidableEq, Repr

/-- Characters that cannot begin a pattern (or follow an atom) in the
modelled fragment. -/
def bareInvalid : List Char :=
  ['*', '+', '?', '(', ')', '[', ']', '\x7b', '\x7d', '|', '^', '$']

/-- An unescaped character as an atom: `.` is the wildcard, everything
else is a literal. -/
def mkAtom (c : Char) : RAtom :=
  if c = '.' then RAtom.anyChar else RAtom.lit c

/-- Compile a pattern string into tokens.  `none` models a pattern the
fragment does not interpret as a plain token sequence (for JavaScript,
either a `SyntaxError` such as a dangling `\` or `*` with nothing to
repeat, or an operator outside the fragment). -/
def parseRegex : List Char → Option (List RTok)
  | [] => some []
  | [c] =>
      if c = '\\' then none
      else if c ∈ bareInvalid then none
      else some [RTok.atom (mkAtom c)]
  | c :: d :: rest =>
      if c = '\\' then
        match rest with
        | [] => some [RTok.atom (RAtom.lit d)]
        | e :: rest2 =>
            if e = '*' then
              Option.map (fun ts => RTok.star (RAtom.lit d) :: ts) (parseRegex rest2)
            else
              Option.map (fun ts => RTok.atom (RAtom.lit d) :: ts) (parseRegex (e :: rest2))
      else if c ∈ bareInvalid then none
      else if d = '*' then
        Option.map (fun ts => RTok.star (mkAtom c) :: ts) (parseRegex rest)
      else
        Option.map (fun ts => RTok.atom (mkAtom c) :: ts) (parseRegex (d :: rest))

/-- Atom-versus-character test under the `"i"` flag: literals compare
case-folded, the wildcard matches everything except a line break. -/
def atomMatch (a : RAtom) (c : Char) : Bool :=
  match a with
  | RAtom.lit d => d.toLower == c.toLower
  | RAtom.anyChar => c != '\n'

/-- Backtracking matcher: does the token sequence match a prefix of the
input? -/
def matchHere : List RTok → List Char → Bool
  | [], _ => true
  | RTok.atom _ :: _, [] => false
  | RTok.atom a :: ts, c :: cs => atomMatch a c && matchHere ts cs
  | RTok.star _ :: ts, [] => matchHere ts []
  | RTok.star a :: ts, c :: cs =>
      matchHere ts (c :: cs) || (atomMatch a c && matchHere (RTok.star a :: ts) cs)
termination_by ts s => (s.length, ts.length)
decreasing_by
  all_goals simp_wf
  all_goals first
    | exact Prod.Lex.right _ (by simp)
    | exact Prod.Lex.left _ _ (by simp)

/-- `RegExp.prototype.test`: try the match at every start position. -/
def regexTest : List RTok → List Char → Bool
  | ts, [] => matchHere ts []
  | ts, c :: cs => matchHere ts (c :: cs) || regexTest ts cs

/-- The token sequence a purely literal pattern compiles to. -/
def litToks (s : List Char) : List RTok :=
  s.map fun c => RTok.atom (RAtom.lit c)

/-! ### Key router (claim C3)

`BaseView.prototype.listenGlobalKeys` (base-view.js) computes
`_.difference(this.globalKeys || [], this.localKeys || [])` and, per
element, installs on `attach` one bubbling binding per resulting key and
removes exactly those bindings on `detach`. -/

/-- `_.difference(globalKeys, localKeys)`: the members of the first
list not present in the second, first-list order preserved. -/
def keyDifference (globalKeys localKeys : List String) : List String :=
  globalKeys.filter fun k => decide (k ∉ localKeys)

/-- The keys currently bound on one element to the `bubbleKeyEvent`
handler. -/
structure ElementKeys where
  bubbled : List String
deriving DecidableEq, Repr

/-- The element's `attach` handler: `element.key(keyDifference,
bubbleKeyEvent)` binds each key of the difference. -/
def listenOnAttach (globalKeys localKeys : List String) (e : ElementKeys) : ElementKeys :=
  ⟨e.bubbled ++ keyDifference globalKeys localKeys⟩

/-- The element's `detach` handler: `element.unkey(keyDifference,
bubbleKeyEvent)` removes each key of the difference. -/
def listenOnDetach (globalKeys localKeys : List String) (e : ElementKeys) : ElementKeys :=
  ⟨e.bubbled.filter fun k => decide (k ∉ keyDifference globalKeys localKeys)⟩

/-- A key event delivered to the element re-emits at the top-level
screen exactly when the key is currently bound to the bubble
handler. -/
def bubblesKey (e : ElementKeys) (k : String) : Bool :=
  decide (k ∈ e.bubbled)

/-! ### Modal input dialog (claims C4, C5, C6, C7)

State of one `BaseInputDialogView` together with the screen pieces it
touches: the dialog node's visibility, the error text element, the
focused element (elements are identified by numbers; `textBoxId` is the
dialog's text field), blessed's single saved-focus slot
(`screen.saveFocus` / `screen.restoreFocus`), and the pending
error-hide timer, recorded as the absolute time at which it would
fire.  A cleared or replaced `errorTimeout` models `clearTimeout`: the
old countdown can no longer fire. -/

/-- Element id of the dialog's text field. -/
def textBoxId : Nat := 1

/-- `ERROR_TEXT_DISPLAY_TIME` (base-input-dialog-view.js:7). -/
def ERROR_TEXT_DISPLAY_TIME : Nat := 3000

/-- Observable state of one input dialog instance. -/
structure DialogSys where
  dialogVisible : Bool
  errorVisible : Bool
  errorText : String
  focus : Nat
  savedFocus : Option Nat
  errorTimeout : Option Nat
deriving DecidableEq, Repr

/-- The node's `show` handler (base-input-dialog-view.js:215-220):
`screen.saveFocus()`, bring to front, `form.reset()` (which hides the
error text), focus the text field. -/
def nodeShow (d : DialogSys) : DialogSys :=
  { d with dialogVisible := true,
           savedFocus := some d.focus,
           errorVisible := false,
           focus := textBoxId }

/-- blessed `node.hide()`: visibility only. -/
def nodeHide (d : DialogSys) : DialogSys :=
  { d with dialogVisible := false }

/-- blessed `node.toggle()`: `hide` if visible, else `show` (firing the
`show` handler above). -/
def nodeToggle (d : DialogSys) : DialogSys :=
  if d.dialogVisible then nodeHide d else nodeShow d

/-- `BaseInputDialogView.prototype.toggle`: `node.toggle()` plus a
render. -/
def dialogToggle (d : DialogSys) : DialogSys :=
  nodeToggle d

/-- blessed `screen.restoreFocus()`: focus the saved element, clearing
the slot; nothing saved, nothing restored. -/
def restoreFocus (d : DialogSys) : DialogSys :=
  match d.savedFocus with
  | none => d
  | some f => { d with focus := f, savedFocus := none }

/-- `BaseInputDialogView.prototype.hide`: `node.hide()` then
`screen.restoreFocus()`. -/
def dialogHide (d : DialogSys) : DialogSys :=
  restoreFocus (nodeHide d)

/-- The form `submit` handler (base-input-dialog-view.js:260-280):
cancel any pending error-hide timer, then `validate()` — on success
`hide()`, on an exception show the message, focus the text field and
schedule the error-hide timer `ERROR_TEXT_DISPLAY_TIME` from now.  The
outcome of the dialog-specific `validate` is passed as an `Except`. -/
def formSubmit (outcome : Except String Unit) (now : Nat) (d : DialogSys) : DialogSys :=
  let d0 := { d with errorTimeout := none }
  match outcome with
  | Except.ok _ => dialogHide d0
  | Except.error msg =>
      { d0 with errorVisible := true,
                errorText := msg,
                focus := textBoxId,
                errorTimeout := some (now + ERROR_TEXT_DISPLAY_TIME) }

/-- Expiry of the scheduled callback at absolute time `t`: it hides the
error text, but only a still-pending timer for that instant fires — a
cancelled or replaced timer is a no-op. -/
def timerFire (t : Nat) (d : DialogSys) : DialogSys :=
  if d.errorTimeout = some t
  then { d with errorVisible := false, errorTimeout := none }
  else d

/-- Modelled from the spec: the metrics collaborator's
`getAvailableTimeRange()` as read by `GotoTimeView.prototype.getTimeRange`
(goto-time-view.js:41-48) — the two boundary labels; an absent/unusable
range is reported as an empty (falsy) `max` label. -/
structure TimeRange where
  minLabel : String
  maxLabel : String
deriving DecidableEq, Repr

/-- `GotoTimeView.prototype.toggle` (goto-time-view.js:90-98): return
without effect when the range's `max` label is falsy or the dialog is
already visible; otherwise defer to the base toggle. -/
def gotoTimeToggle (range : TimeRange) (d : DialogSys) : DialogSys :=
  if range.maxLabel = "" ∨ d.dialogVisible then d else nodeToggle d

/-! ### Text-field keypress handling (claim C5) -/

/-- A blessed key descriptor as consumed by `cleanseKeypress`. -/
structure KeyDesc where
  full : String
  name : String
  ctrl : Bool
  meta : Bool
deriving DecidableEq, Repr

/-- The `ignoredKeys` list of `cleanseKeypress`
(base-input-dialog-view.js:29-34). -/
def ignoredKeys : List String :=
  ["backspace", "delete", "escape", "tab"]

/-- The ignore decision of `cleanseKeypress`: any ctrl- or
meta-modified key, or a key whose `full` or `name` is one of
`ignoredKeys`. -/
def keyIgnored (key : KeyDesc) : Bool :=
  if key.ctrl || key.meta then true
  else ignoredKeys.any fun k => key.full == k || key.name == k

/-- The characters scrubbed by `ch.replace(/\t|\r|\n|\v|\f|\0|[\b]/gm, "")`:
tab, CR, LF, VT, FF, NUL and the backspace byte. -/
def controlChars : List Char :=
  ['\t', '\r', '\n', '\x0b', '\x0c', '\x00', '\x08']

/-- `cleanseKeypress(ch, key)` (base-input-dialog-view.js:26-53): the
empty string for a falsy `ch` or an ignored key, otherwise `ch` with
every control character stripped. -/
def cleanseKeypress (ch : List Char) (key : KeyDesc) : List Char :=
  if ch.isEmpty || keyIgnored key then []
  else ch.filter fun c => decide (c ∉ controlChars)

/-- The payload of the `textChanged` emission: the raw character, the
key descriptor, and the recomputed shadow text. -/
structure TextChangedEvent where
  ch : List Char
  key : KeyDesc
  text : List Char
deriving DecidableEq, Repr

/-- The text box `keypress` handler (base-input-dialog-view.js:234-242):
backspace drops the last character of the current text
(`text.slice(0, text.length - 1)`), any other key appends the cleansed
keypress; a `textChanged` event always fires with the raw inputs and
the new text. -/
def onTextBoxKeypress (prevText ch : List Char) (key : KeyDesc) : TextChangedEvent :=
  let text :=
    if key.full == "backspace" || key.name == "backspace"
    then prevText.take (prevText.length - 1)
    else prevText ++ cleanseKeypress ch key
  ⟨ch, key, text⟩

/-! ### View node lifecycle (claim C8)

`BaseView` (base-view.js) subscribes its bound `recalculatePosition` to
the screen's `resize` event in the constructor and unsubscribes it in
`destroy`, which also removes the node from its parent and nulls it.
The screen's resize listener list is modelled as a list of view ids;
views are identified by a `Nat`. -/

/-- A blessed position rectangle. -/
structure Rect where
  top : Int
  left : Int
  width : Int
  height : Int
deriving DecidableEq, Repr

/-- The per-view state `destroy` and `recalculatePosition` touch: the
node (its position; `none` once the node has been nulled) and whether
the node is attached to the parent. -/
structure BaseViewNode where
  node : Option Rect
  attached : Bool
deriving DecidableEq, Repr

/-- `screen.on("resize", handler)` in the `BaseView` constructor:
append the view's handler to the listener list. -/
def screenOnResize (listeners : List Nat) (vid : Nat) : List Nat :=
  listeners ++ [vid]

/-- `screen.removeListener("resize", handler)`: remove the first
registration of this view's handler. -/
def removeResizeListener (listeners : List Nat) (vid : Nat) : List Nat :=
  listeners.erase vid

/-- `BaseView.prototype.destroy` (base-view.js:416-424): if the node is
still set, detach it from the parent and null it; always unsubscribe
the resize handler. -/
def destroyView (listeners : List Nat) (vid : Nat) (v : BaseViewNode) :
    List Nat × BaseViewNode :=
  (removeResizeListener listeners vid,
   match v.node with
   | some _ => { v with attached := false, node := none }
   | none => v)

/-- `BaseView.prototype.recalculatePosition` (base-view.js:403-414):
read the node's position and overwrite it when the newly computed one
differs (`remountOnResize` re-appending does not change this state).
`none` models the `TypeError` of reading `this.node.position` on a
destroyed (nulled) node. -/
def recalculatePosition (newPos : Rect) (v : BaseViewNode) : Option BaseViewNode :=
  match v.node with
  | none => none
  | some p => some (if p = newPos then v else { v with node := some newPos })

/-- A screen `resize` emission as seen by one view: its handler runs
only while its subscription is registered. -/
def resizeDispatch (listeners : List Nat) (vid : Nat) (newPos : Rect) (v : BaseViewNode) :
    Option BaseViewNode :=
  if vid ∈ listeners then recalculatePosition newPos v else some v

/-! ### Dashboard layout switching (claim C9)

`Dashboard.prototype._showLayout` (dashboard.js:296-345).  A layout is
a list of entries; an entry resolves to a view constructor when its
type is in the built-in `VIEW_MAP` or it names a module.  The per-view
settings merge only alters the constructed view's configuration, so it
is not part of this state model. -/

/-- One entry of a layout definition: `layoutConfig.view.type` and the
optional `layoutConfig.view.module`. -/
structure LayoutEntry where
  viewType : String
  viewModule : Option String
deriving DecidableEq, Repr

/-- The keys of `VIEW_MAP` (dashboard.js:287-294). -/
def viewMapTypes : List String :=
  ["log", "cpu", "memory", "memoryGraph", "eventLoop", "platformDetails"]

/-- An entry yields a constructor (`if (View)`) iff its type is mapped
or a module is given; otherwise the entry is silently skipped. -/
def resolvesView (e : LayoutEntry) : Bool :=
  viewMapTypes.contains e.viewType || e.viewModule.isSome

/-- The observable side effects of a layout switch, in program
order. -/
inductive LayoutOp where
  | destroyNode
  | createNode
deriving DecidableEq, Repr

/-- Dashboard state: the current layout id (unset before the first
activation), the number of live view nodes, and the screen's focus
stack (`focusPush`/`focusPop`). -/
structure DashState where
  current : Option Nat
  liveViews : Nat
  focusStack : List Nat
deriving DecidableEq, Repr

/-- How many entries of a layout actually construct a view. -/
def resolvedCount (entries : List LayoutEntry) : Nat :=
  (entries.filter fun e => resolvesView e).length

/-- `_showLayout(id)`: return unchanged when `id` is already current;
otherwise destroy every live view, pop the focus stack empty, push the
main container, construct one view per resolvable entry of the target
layout, and record the new current id.  The returned trace lists the
destroys and constructions in program order. -/
def showLayout (layouts : List (List LayoutEntry)) (container : Nat)
    (st : DashState) (id : Nat) : DashState × List LayoutOp :=
  if st.current = some id then (st, [])
  else
    ({ current := some id,
       liveViews := resolvedCount (layouts.getD id []),
       focusStack := [container] },
     List.replicate st.liveViews LayoutOp.destroyNode
       ++ List.replicate (resolvedCount (layouts.getD id [])) LayoutOp.createNode)

/-! ### Environment-variable filter setter (claim C10)

`PlatformDetailsView.prototype.setEnvironmentVariablesFilter` and
`onEnvironmentVariablesFilterChange`
(platform-details-view.js:535-573).  The env box's rendered content is
a pure function of the kept rows and the filter terms
(`getBoxContent(getEnvDetails(filters), filters)`), so the state
records those arguments. -/

/-- The ASCII whitespace characters of the split pattern `/\s/gm`. -/
def wsChars : List Char :=
  [' ', '\t', '\n', '\r', '\x0b', '\x0c']

/-- Accumulator worker for `splitWs`. -/
def splitWsAux : List Char → List Char → List (List Char)
  | acc, [] => [acc.reverse]
  | acc, c :: rest =>
      if c ∈ wsChars then acc.reverse :: splitWsAux [] rest
      else splitWsAux (c :: acc) rest

/-- `after.split(/\s/gm)`: the fields between single whitespace
characters, empty fields kept. -/
def splitWs (s : List Char) : List (List Char) :=
  splitWsAux [] s

/-- The state of the platform-details view touched by the filter
setter: the stored `_filter` value, the env box's label, the arguments
of its rendered content, and its scroll offset. -/
structure PlatformDetailsState where
  filterValue : List Char
  envLabel : String
  envRows : List DetailRow
  envFilters : List (List Char)
  envScroll : Nat
deriving DecidableEq, Repr

/-- `onEnvironmentVariablesFilterChange(before, after)`: split the new
value on whitespace, regenerate the env box content from the filtered
rows, swap the label depending on whether the value is truthy, and
reset the scroll. -/
def onEnvironmentVariablesFilterChange (env : List DetailRow)
    (st : PlatformDetailsState) (after : List Char) : PlatformDetailsState :=
  let filters := splitWs after
  { st with
    envLabel :=
      if after.isEmpty then " Environment Variables "
      else " Environment Variables (subsetted) ",
    envRows := getEnvDetails filters env,
    envFilters := filters,
    envScroll := 0 }

/-- `setEnvironmentVariablesFilter(value)`: act only when the value
differs from the stored filter; then run the change handler and store
the value. -/
def setEnvironmentVariablesFilter (env : List DetailRow)
    (st : PlatformDetailsState) (value : List Char) : PlatformDetailsState :=
  if value ≠ st.filterValue then
    { onEnvironmentVariablesFilterChange env st value with filterValue := value }
  else st

/-- No output of `escapeRegExp` begins with a bare `*`: specials get a
leading backslash and `*` itself is special. -/
theorem escapeRegExp_head_ne_star (s : List Char) :
    ∀ d r, escapeRegExp s = d :: r → d ≠ '*' := by
  intro d r h hd
  subst hd
  cases s with
  | nil => simp [escapeRegExp] at h
  | cons c s2 =>
    rw [escapeRegExp] at h
    by_cases hc : c ∈ regexSpecials
    · rw [if_pos hc] at h
      simp at h
    · rw [if_neg hc] at h
      simp at h
      exact hc (h.1 ▸ (by decide))

/-- `escapeRegExp` only produces the empty pattern from the empty
term. -/
theorem escapeRegExp_eq_nil {s : List Char} (h : escapeRegExp s = []) : s = [] := by
  cases s with
  | nil => rfl
  | cons c s2 =>
    rw [escapeRegExp] at h
    by_cases hc : c ∈ regexSpecials
    · rw [if_pos hc] at h; simp at h
    · rw [if_neg hc] at h; simp at h

/-- Compiling an escaped term never fails and yields exactly the term's
characters as literal atoms. -/
theorem parseRegex_escape (s : List Char) :
    parseRegex (escapeRegExp s) = some (litToks s) := by
  induction s with
  | nil => rfl
  | cons c s ih =>
    rw [escapeRegExp]
    by_cases hc : c ∈ regexSpecials
    · rw [if_pos hc]
      cases hE : escapeRegExp s with
      | nil =>
        have hs : s = [] := escapeRegExp_eq_nil hE
        subst hs
        simp [parseRegex, litToks]
      | cons e E2 =>
        have he : e ≠ '*' := escapeRegExp_head_ne_star s e E2 hE
        rw [hE] at ih
        rw [show ((['\\', c] ++ e :: E2) = '\\' :: c :: e :: E2) from rfl, parseRegex.eq_def]
        simp [he, ih, litToks]
    · rw [if_neg hc]
      have hsub : ∀ x ∈ bareInvalid, x ∈ regexSpecials := by decide
      have hc8 : c ≠ '\\' := fun hx => hc (hx ▸ (by decide))
      have hcd : c ≠ '.' := fun hx => hc (hx ▸ (by decide))
      have hcb : c ∉ bareInvalid := fun hx => hc (hsub c hx)
      cases hE : escapeRegExp s with
      | nil =>
        have hs : s = [] := escapeRegExp_eq_nil hE
        subst hs
        rw [show (([c] ++ ([] : List Char)) = [c]) from rfl, parseRegex.eq_def]
        simp [hc8, hcb, mkAtom, hcd, litToks]
      | cons d E2 =>
        have hd : d ≠ '*' := escapeRegExp_head_ne_star s d E2 hE
        rw [hE] at ih
        rw [show (([c] ++ d :: E2) = c :: d :: E2) from rfl, parseRegex.eq_def]
        simp [hc8, hcb, hd, mkAtom, hcd, ih, litToks]

/-- Anchored matching of a purely literal token sequence is the
case-folded prefix test. -/
theorem matchHere_litToks (s : List Char) :
    ∀ hay, matchHere (litToks s) hay = isPrefixList (lowerStr s) (lowerStr hay) := by
  induction s with
  | nil => intro hay; cases hay <;> simp [litToks, matchHere, lowerStr, isPrefixList]
  | cons a s ih =>
    intro hay
    cases hay with
    | nil => simp [litToks, matchHere, lowerStr, isPrefixList]
    | cons b t =>
      simp only [litToks, List.map_cons, matchHere, lowerStr, isPrefixList, atomMatch]
      rw [show List.map (fun c => RTok.atom (RAtom.lit c)) s = litToks s from rfl,
        show List.map Char.toLower s = lowerStr s from rfl,
        show List.map Char.toLower t = lowerStr t from rfl, ih t]

/-- Unanchored matching (`test`) of a purely literal token sequence is
the case-folded substring test. -/
theorem regexTest_litToks (s hay : List Char) :
    regexTest (litToks s) hay = containsSub (lowerStr s) (lowerStr hay) := by
  induction hay with
  | nil => simp [regexTest, containsSub, matchHere_litToks, lowerStr]
  | cons c t ih =>
    rw [regexTest, containsSub.eq_def]
    simp only [lowerStr, List.map_cons]
    rw [show List.map Char.toLower s = lowerStr s from rfl,
      show List.map Char.toLower t = lowerStr t from rfl,
      show (Char.toLower c :: lowerStr t) = lowerStr (c :: t) from by simp [lowerStr],
      ← matchHere_litToks s (c :: t), ih]

/-- For the current implementation's `_.escapeRegExp`
(platform-details-view.js:348): compiling the escaped term never fails
and produces only literal atoms, applying it tests for the literal
(case-folded) substring, and in particular the term "a.b*" matches
exactly where the characters `a.b*` occur, while the same characters
compiled *without* escaping would behave as a wildcard pattern
(matching "aXbbb"). -/
theorem escapeRegExp_terms_literal (term hay : List Char) :
    parseRegex (escapeRegExp term) = some (litToks term)
    ∧ regexTest (litToks term) hay = termMatches term hay
    ∧ termMatches "a.b*".toList "xxa.b*yy".toList = true
    ∧ termMatches "a.b*".toList "aXbbb".toList = false
    ∧ (parseRegex "a.b*".toList).map (fun ts => regexTest ts "aXbbb".toList) = some true := by
  refine ⟨parseRegex_escape term, regexTest_litToks term hay, by decide, by decide, ?_⟩
  rw [show parseRegex "a.b*".toList
      = some [RTok.atom (RAtom.lit 'a'), RTok.atom RAtom.anyChar, RTok.star (RAtom.lit 'b')]
    from by decide]
  simp [regexTest, matchHere, atomMatch]

/-- Claim C1: `getEnvDetails` keeps a row iff every non-empty term
matches (case-insensitively) the label or the value; the result is an
order-preserving sublist of the input, and when every term is empty the
whole input is returned unchanged; on the spec's example only the HOME
row survives the term "ho". -/
theorem c1_filter_rows (env : List DetailRow) (filters : List (List Char)) :
    (∀ row, row ∈ getEnvDetails filters env ↔ row ∈ env ∧ specKeeps filters row)
    ∧ List.Sublist (getEnvDetails filters env) env
    ∧ ((∀ t ∈ filters, t = []) → getEnvDetails filters env = env)
    ∧ getEnvDetails ["ho".toList]
        [⟨"PATH".toList, "/usr/bin".toList⟩, ⟨"HOME".toList, "/root".toList⟩]
        = [⟨"HOME".toList, "/root".toList⟩] := by
  refine ⟨?_, ?_, ?_, by decide⟩
  · intro row
    rw [getEnvDetails, List.mem_filter]
    constructor
    · rintro ⟨hmem, hkept⟩
      refine ⟨hmem, ?_⟩
      intro t ht hne
      rw [rowKept, List.all_eq_true] at hkept
      have := hkept t ht
      rw [if_neg (by simpa using hne)] at this
      simp only [Bool.or_eq_true] at this
      rcases this with (h | h) | h
      · exact absurd (List.isEmpty_iff.mp h) hne
      · exact Or.inl h
      · exact Or.inr h
    · rintro ⟨hmem, hspec⟩
      refine ⟨hmem, ?_⟩
      rw [rowKept, List.all_eq_true]
      intro t ht
      by_cases he : t = []
      · rw [if_pos (by simp [he])]
      · rw [if_neg (by simpa using he)]
        rcases hspec t ht he with h | h
        · simp [h]
        · simp [h]
  · exact List.filter_sublist env
  · intro hall
    rw [getEnvDetails]
    apply List.filter_eq_self.mpr
    intro row hrow
    rw [rowKept, List.all_eq_true]
    intro t ht
    rw [if_pos (by simp [hall t ht])]

/-- Claim C3: the keys installed to bubble on attach are exactly the
set difference of global and local keys (on the spec's example
{a,b,c} − {b} = {a,c}), and after the element's detach every installed
binding is removed, so no key event bubbles any more. -/
theorem c3_global_key_routing (globalKeys localKeys : List String) :
    (∀ k, k ∈ keyDifference globalKeys localKeys ↔ k ∈ globalKeys ∧ k ∉ localKeys)
    ∧ keyDifference ["a", "b", "c"] ["b"] = ["a", "c"]
    ∧ (listenOnAttach globalKeys localKeys ⟨[]⟩).bubbled = keyDifference globalKeys localKeys
    ∧ ∀ k, bubblesKey
        (listenOnDetach globalKeys localKeys (listenOnAttach globalKeys localKeys ⟨[]⟩)) k
        = false := by
  refine ⟨?_, by decide, by simp [listenOnAttach], ?_⟩
  · intro k
    simp [keyDifference, List.mem_filter]
  · intro k
    have hnil : (listenOnDetach globalKeys localKeys
        (listenOnAttach globalKeys localKeys ⟨[]⟩)).bubbled = [] := by
      simp only [listenOnDetach, listenOnAttach, List.nil_append]
      apply List.filter_eq_nil_iff.mpr
      intro a ha
      simp [ha]
    simp [bubblesKey, hnil]

/-- Claim C4: from a visible dialog, `submit` first cancels the pending
error-hide timer; a successful `validate` hides the dialog and restores
the previously focused element; a failing `validate` shows the message,
keeps the text field focused, keeps the dialog visible and schedules the
single pending timer exactly `ERROR_TEXT_DISPLAY_TIME = 3000` ms from
now; a second failing submit re-bases the countdown on the second call,
the first countdown can no longer fire, and exactly the re-based timer
hides the error. -/
theorem c4_submit_protocol (d : DialogSys) (msg : String) (t1 t2 f : Nat)
    (hv : d.dialogVisible = true) :
    ((formSubmit (Except.ok ()) t1 d).dialogVisible = false
      ∧ (formSubmit (Except.ok ()) t1 d).errorTimeout = none)
    ∧ (d.savedFocus = some f → (formSubmit (Except.ok ()) t1 d).focus = f)
    ∧ ((formSubmit (Except.error msg) t1 d).dialogVisible = true
      ∧ (formSubmit (Except.error msg) t1 d).errorVisible = true
      ∧ (formSubmit (Except.error msg) t1 d).errorText = msg
      ∧ (formSubmit (Except.error msg) t1 d).focus = textBoxId
      ∧ (formSubmit (Except.error msg) t1 d).errorTimeout
          = some (t1 + ERROR_TEXT_DISPLAY_TIME))
    ∧ (formSubmit (Except.error msg) t2 (formSubmit (Except.error msg) t1 d)).errorTimeout
        = some (t2 + ERROR_TEXT_DISPLAY_TIME)
    ∧ (t1 ≠ t2 →
        timerFire (t1 + ERROR_TEXT_DISPLAY_TIME)
            (formSubmit (Except.error msg) t2 (formSubmit (Except.error msg) t1 d))
          = formSubmit (Except.error msg) t2 (formSubmit (Except.error msg) t1 d))
    ∧ (timerFire (t2 + ERROR_TEXT_DISPLAY_TIME)
          (formSubmit (Except.error msg) t2 (formSubmit (Except.error msg) t1 d))).errorVisible
        = false := by
  refine ⟨⟨?_, ?_⟩, ?_, ⟨?_, ?_, ?_, ?_, ?_⟩, ?_, ?_, ?_⟩
  · simp [formSubmit, dialogHide, nodeHide, restoreFocus]
    cases d.savedFocus <;> simp
  · simp [formSubmit, dialogHide, nodeHide, restoreFocus]
    cases d.savedFocus <;> simp
  · intro h
    simp [formSubmit, dialogHide, nodeHide, restoreFocus, h]
  · simp [formSubmit, hv]
  · simp [formSubmit]
  · simp [formSubmit]
  · simp [formSubmit]
  · simp [formSubmit]
  · simp [formSubmit]
  · intro hne
    have hne2 : ¬ (some (t2 + ERROR_TEXT_DISPLAY_TIME) = some (t1 + ERROR_TEXT_DISPLAY_TIME)) := by
      simp
      omega
    simp [formSubmit, timerFire, hne2]
  · simp [formSubmit, timerFire]

/-- Witness for C4 at a concrete visible dialog with an old pending
timer. -/
theorem c4_submit_protocol_witness :
    (formSubmit (Except.ok ())
        10 (⟨true, false, "", 5, some 7, some 99⟩ : DialogSys)).dialogVisible = false
    ∧ (formSubmit (Except.ok ())
        10 (⟨true, false, "", 5, some 7, some 99⟩ : DialogSys)).focus = 7
    ∧ timerFire (10 + ERROR_TEXT_DISPLAY_TIME)
        (formSubmit (Except.error "bad") 20
          (formSubmit (Except.error "bad") 10 (⟨true, false, "", 5, some 7, some 99⟩ : DialogSys)))
      = formSubmit (Except.error "bad") 20
          (formSubmit (Except.error "bad") 10 (⟨true, false, "", 5, some 7, some 99⟩ : DialogSys)) := by
  have h := c4_submit_protocol ⟨true, false, "", 5, some 7, some 99⟩ "bad" 10 20 7 rfl
  exact ⟨h.1.1, h.2.1 rfl, h.2.2.2.2.1 (by decide)⟩

/-- Claim C5: backspace recomputes the shadow text as the previous text
without its last character; ignored keys (delete, escape, tab, ctrl- or
meta-modified) append nothing; any other keypress appends its character
with every control character stripped; and the `textChanged` payload
always carries the raw character and the key descriptor. -/
theorem c5_keypress_shadow_text (prev ch : List Char) (key : KeyDesc) :
    ((key.full = "backspace" ∨ key.name = "backspace") →
        onTextBoxKeypress prev ch key = ⟨ch, key, prev.dropLast⟩)
    ∧ (key.full ≠ "backspace" → key.name ≠ "backspace" → keyIgnored key = true →
        onTextBoxKeypress prev ch key = ⟨ch, key, prev⟩)
    ∧ (key.full ≠ "backspace" → key.name ≠ "backspace" → keyIgnored key = false →
        onTextBoxKeypress prev ch key
          = ⟨ch, key, prev ++ ch.filter fun c => decide (c ∉ controlChars)⟩)
    ∧ (onTextBoxKeypress prev ch key).ch = ch
    ∧ (onTextBoxKeypress prev ch key).key = key := by
  refine ⟨?_, ?_, ?_, rfl, rfl⟩
  · intro h
    have hb : (key.full == "backspace" || key.name == "backspace") = true := by
      rcases h with h | h <;> simp [h]
    simp [onTextBoxKeypress, hb, List.dropLast_eq_take]
  · intro h1 h2 hign
    have hb : (key.full == "backspace" || key.name == "backspace") = false := by
      simp [h1, h2]
    simp [onTextBoxKeypress, hb, cleanseKeypress, hign]
  · intro h1 h2 hign
    have hb : (key.full == "backspace" || key.name == "backspace") = false := by
      simp [h1, h2]
    cases hch : ch with
    | nil => simp [onTextBoxKeypress, hb, cleanseKeypress, hign]
    | cons c cs => simp [onTextBoxKeypress, hb, cleanseKeypress, hign]

/-- Witness for C5: a backspace deletes, escape appends nothing, and a
printable key is appended with its tab stripped. -/
theorem c5_keypress_shadow_text_witness :
    onTextBoxKeypress "ab".toList "".toList ⟨"backspace", "backspace", false, false⟩
      = ⟨"".toList, ⟨"backspace", "backspace", false, false⟩, "a".toList⟩
    ∧ onTextBoxKeypress "ab".toList "".toList ⟨"escape", "escape", false, false⟩
      = ⟨"".toList, ⟨"escape", "escape", false, false⟩, "ab".toList⟩
    ∧ onTextBoxKeypress "ab".toList ['c', '\t'] ⟨"c", "c", false, false⟩
      = ⟨['c', '\t'], ⟨"c", "c", false, false⟩, "abc".toList⟩ := by
  have h1 := (c5_keypress_shadow_text "ab".toList "".toList
    ⟨"backspace", "backspace", false, false⟩).1 (Or.inl rfl)
  have h2 := (c5_keypress_shadow_text "ab".toList "".toList
    ⟨"escape", "escape", false, false⟩).2.1 (by decide) (by decide) (by decide)
  have h3 := (c5_keypress_shadow_text "ab".toList ['c', '\t']
    ⟨"c", "c", false, false⟩).2.2.1 (by decide) (by decide) (by decide)
  refine ⟨by rw [h1]; decide, by rw [h2], by rw [h3]; decide⟩

/-- Counterexample to claim C6 as stated: a goto-time dialog whose
metrics range is usable and which is currently visible is left visible
by `toggle()` — the override returns early instead of hiding. -/
theorem c6_toggle_counterexample :
    (⟨"00:00", "12:34"⟩ : TimeRange).maxLabel ≠ ""
    ∧ (⟨true, false, "", 2, none, none⟩ : DialogSys).dialogVisible = true
    ∧ gotoTimeToggle ⟨"00:00", "12:34"⟩ (⟨true, false, "", 2, none, none⟩ : DialogSys)
        = (⟨true, false, "", 2, none, none⟩ : DialogSys)
    ∧ (gotoTimeToggle ⟨"00:00", "12:34"⟩
        (⟨true, false, "", 2, none, none⟩ : DialogSys)).dialogVisible ≠ false := by
  decide

/-- Claim C6 (amended): the base dialog `toggle` shows a hidden dialog
and hides a visible one; the goto-time override shows a hidden dialog
when the range is usable, but on a visible dialog it returns without
changing anything. -/
theorem c6_toggle_amended (d : DialogSys) (range : TimeRange) :
    (d.dialogVisible = false → (dialogToggle d).dialogVisible = true)
    ∧ (d.dialogVisible = true → (dialogToggle d).dialogVisible = false)
    ∧ (range.maxLabel ≠ "" → d.dialogVisible = false →
        (gotoTimeToggle range d).dialogVisible = true)
    ∧ (d.dialogVisible = true → gotoTimeToggle range d = d) := by
  refine ⟨?_, ?_, ?_, ?_⟩
  · intro h; simp [dialogToggle, nodeToggle, nodeShow, h]
  · intro h; simp [dialogToggle, nodeToggle, nodeHide, h]
  · intro hr h; simp [gotoTimeToggle, hr, nodeToggle, nodeShow, h]
  · intro h; simp [gotoTimeToggle, h]

/-- Witness for the amended C6 at concrete hidden and visible
dialogs. -/
theorem c6_toggle_amended_witness :
    (dialogToggle (⟨false, false, "", 2, none, none⟩ : DialogSys)).dialogVisible = true
    ∧ (dialogToggle (⟨true, false, "", 2, none, none⟩ : DialogSys)).dialogVisible = false
    ∧ (gotoTimeToggle ⟨"00:00", "12:34"⟩
        (⟨false, false, "", 2, none, none⟩ : DialogSys)).dialogVisible = true
    ∧ gotoTimeToggle ⟨"00:00", "12:34"⟩ (⟨true, false, "", 2, none, none⟩ : DialogSys)
        = (⟨true, false, "", 2, none, none⟩ : DialogSys) :=
  ⟨(c6_toggle_amended ⟨false, false, "", 2, none, none⟩ ⟨"00:00", "12:34"⟩).1 rfl,
   (c6_toggle_amended ⟨true, false, "", 2, none, none⟩ ⟨"00:00", "12:34"⟩).2.1 rfl,
   (c6_toggle_amended ⟨false, false, "", 2, none, none⟩ ⟨"00:00", "12:34"⟩).2.2.1
     (by decide) rfl,
   (c6_toggle_amended ⟨true, false, "", 2, none, none⟩ ⟨"00:00", "12:34"⟩).2.2.2 rfl⟩

/-- Claim C7: when the metrics collaborator reports no usable range
(falsy `max` label), the goto-time `toggle` is a complete no-op: the
whole dialog state — visibility included — is unchanged, and no error
escapes (the function is total). -/
theorem c7_goto_time_no_range (d : DialogSys) (range : TimeRange)
    (h : range.maxLabel = "") :
    gotoTimeToggle range d = d := by
  simp [gotoTimeToggle, h]

/-- Witness for C7 at a hidden dialog and an empty range. -/
theorem c7_goto_time_no_range_witness :
    gotoTimeToggle ⟨"", ""⟩ (⟨false, false, "", 2, none, none⟩ : DialogSys)
      = (⟨false, false, "", 2, none, none⟩ : DialogSys) :=
  c7_goto_time_no_range ⟨false, false, "", 2, none, none⟩ ⟨"", ""⟩ rfl

/-- Claim C8: after `destroy` the node is detached and nulled, the
resize subscription added by the constructor is gone (the listener list
is back to its pre-construction state), and a subsequent resize
notification leaves the destroyed view's state untouched. -/
theorem c8_destroy_unsubscribes (listeners : List Nat) (vid : Nat) (v : BaseViewNode)
    (r p : Rect) (hfresh : vid ∉ listeners) (hnode : v.node = some r) :
    (destroyView (screenOnResize listeners vid) vid v).2.attached = false
    ∧ (destroyView (screenOnResize listeners vid) vid v).2.node = none
    ∧ (destroyView (screenOnResize listeners vid) vid v).1 = listeners
    ∧ resizeDispatch (destroyView (screenOnResize listeners vid) vid v).1 vid p
        (destroyView (screenOnResize listeners vid) vid v).2
      = some (destroyView (screenOnResize listeners vid) vid v).2 := by
  have herase : (listeners ++ [vid]).erase vid = listeners := by
    rw [List.erase_append_right _ hfresh, List.erase_cons_head, List.append_nil]
  refine ⟨?_, ?_, ?_, ?_⟩
  · simp [destroyView, hnode]
  · simp [destroyView, hnode]
  · simp [destroyView, removeResizeListener, screenOnResize, herase]
  · have hl : (destroyView (screenOnResize listeners vid) vid v).1 = listeners := by
      simp [destroyView, removeResizeListener, screenOnResize, herase]
    rw [hl, resizeDispatch, if_neg hfresh]

/-- Witness for C8 at a concrete subscribed view. -/
theorem c8_destroy_unsubscribes_witness :
    (destroyView (screenOnResize [5] 9) 9 ⟨some ⟨0, 0, 10, 4⟩, true⟩).2.attached = false
    ∧ (destroyView (screenOnResize [5] 9) 9 ⟨some ⟨0, 0, 10, 4⟩, true⟩).1 = [5]
    ∧ resizeDispatch (destroyView (screenOnResize [5] 9) 9 ⟨some ⟨0, 0, 10, 4⟩, true⟩).1 9
        ⟨0, 0, 20, 8⟩ (destroyView (screenOnResize [5] 9) 9 ⟨some ⟨0, 0, 10, 4⟩, true⟩).2
      = some (destroyView (screenOnResize [5] 9) 9 ⟨some ⟨0, 0, 10, 4⟩, true⟩).2 := by
  have h := c8_destroy_unsubscribes [5] 9 ⟨some ⟨0, 0, 10, 4⟩, true⟩ ⟨0, 0, 10, 4⟩
    ⟨0, 0, 20, 8⟩ (by decide) rfl
  exact ⟨h.1, h.2.2.1, h.2.2.2⟩

/-- Counterexample to claim C9's "one View Node is created per entry":
a layout whose single entry has an unmapped type and no module
constructs zero views. -/
theorem c9_per_entry_counterexample :
    (([[⟨"bogus", none⟩]] : List (List LayoutEntry)).getD 0 []).length = 1
    ∧ (showLayout [[⟨"bogus", none⟩]] 0 ⟨none, 0, []⟩ 0).1.liveViews = 0 := by
  decide

/-- Claim C9 (amended): activating the current layout is a no-op;
otherwise every live node is destroyed before any new node is
constructed (the trace is all destroys followed by all creates), the
focus stack is cleared to just the refocused base container, one view
is created per resolvable entry of the target layout, and switching to
layout 1 and back to 0 leaves the same live-view count as a fresh
activation of layout 0. -/
theorem c9_activate_layout (layouts : List (List LayoutEntry)) (container : Nat)
    (st : DashState) (id : Nat) :
    (st.current = some id → showLayout layouts container st id = (st, []))
    ∧ (st.current ≠ some id →
        (showLayout layouts container st id).2
            = List.replicate st.liveViews LayoutOp.destroyNode
              ++ List.replicate (resolvedCount (layouts.getD id [])) LayoutOp.createNode
          ∧ (showLayout layouts container st id).1.focusStack = [container]
          ∧ (showLayout layouts container st id).1.liveViews
              = resolvedCount (layouts.getD id []))
    ∧ (showLayout layouts container (showLayout layouts container st 1).1 0).1.liveViews
        = (showLayout layouts container (⟨none, 0, []⟩ : DashState) 0).1.liveViews := by
  refine ⟨?_, ?_, ?_⟩
  · intro h; simp [showLayout, h]
  · intro h; simp [showLayout, h]
  · by_cases h1 : st.current = some 1
    · have h0 : st.current ≠ some 0 := by rw [h1]; simp
      simp [showLayout, h1, h0]
    · simp [showLayout, h1]

/-- Witness for the amended C9: a no-op reactivation and a concrete
switch from two live views to the one-entry layout 1. -/
theorem c9_activate_layout_witness :
    showLayout [[⟨"log", none⟩, ⟨"cpu", none⟩], [⟨"memory", none⟩]] 0
        (⟨some 0, 2, [0]⟩ : DashState) 0
      = ((⟨some 0, 2, [0]⟩ : DashState), [])
    ∧ (showLayout [[⟨"log", none⟩, ⟨"cpu", none⟩], [⟨"memory", none⟩]] 0
        (⟨some 0, 2, [0]⟩ : DashState) 1).2
      = List.replicate 2 LayoutOp.destroyNode ++ List.replicate 1 LayoutOp.createNode := by
  have h := c9_activate_layout [[⟨"log", none⟩, ⟨"cpu", none⟩], [⟨"memory", none⟩]] 0
    ⟨some 0, 2, [0]⟩ 0
  have h2 := c9_activate_layout [[⟨"log", none⟩, ⟨"cpu", none⟩], [⟨"memory", none⟩]] 0
    ⟨some 0, 2, [0]⟩ 1
  refine ⟨h.1 rfl, ?_⟩
  rw [(h2.2.1 (by decide)).1]
  decide

/-- After the setter runs, the stored filter is the requested value. -/
theorem setFilter_stores_value (env : List DetailRow)
    (st : PlatformDetailsState) (v : List Char) :
    (setEnvironmentVariablesFilter env st v).filterValue = v := by
  by_cases h : v = st.filterValue
  · simp [setEnvironmentVariablesFilter, h]
  · simp [setEnvironmentVariablesFilter, h]

/-- Claim C10: setting the filter to its current value changes nothing
(no regeneration, no label change, no scroll reset), and hence setting
the same value twice equals setting it once. -/
theorem c10_set_filter_idempotent (env : List DetailRow)
    (st : PlatformDetailsState) (v : List Char) :
    (st.filterValue = v → setEnvironmentVariablesFilter env st v = st)
    ∧ setEnvironmentVariablesFilter env (setEnvironmentVariablesFilter env st v) v
        = setEnvironmentVariablesFilter env st v := by
  constructor
  · intro h
    simp [setEnvironmentVariablesFilter, h]
  · have h2 := setFilter_stores_value env st v
    rw [setEnvironmentVariablesFilter, if_neg (by simp [h2])]

/-- Witness for C10: re-applying the filter "ho" to a state already
holding it is the identity, twice equals once. -/
theorem c10_set_filter_idempotent_witness :
    setEnvironmentVariablesFilter [⟨"HOME".toList, "/root".toList⟩]
        (⟨"ho".toList, " Environment Variables (subsetted) ",
          [⟨"HOME".toList, "/root".toList⟩], ["ho".toList], 0⟩ : PlatformDetailsState)
        "ho".toList
      = (⟨"ho".toList, " Environment Variables (subsetted) ",
          [⟨"HOME".toList, "/root".toList⟩], ["ho".toList], 0⟩ : PlatformDetailsState)
    ∧ setEnvironmentVariablesFilter [⟨"HOME".toList, "/root".toList⟩]
        (setEnvironmentVariablesFilter [⟨"HOME".toList, "/root".toList⟩]
          (⟨"".toList, " Environment Variables ", [⟨"HOME".toList, "/root".toList⟩], [], 0⟩
            : PlatformDetailsState) "ho".toList)
        "ho".toList
      = setEnvironmentVariablesFilter [⟨"HOME".toList, "/root".toList⟩]
          (⟨"".toList, " Environment Variables ", [⟨"HOME".toList, "/root".toList⟩], [], 0⟩
            : PlatformDetailsState) "ho".toList :=
  ⟨(c10_set_filter_idempotent [⟨"HOME".toList, "/root".toList⟩]
      ⟨"ho".toList, " Environment Variables (subsetted) ",
        [⟨"HOME".toList, "/root".toList⟩], ["ho".toList], 0⟩ "ho".toList).1 rfl,
   (c10_set_filter_idempotent [⟨"HOME".toList, "/root".toList⟩]
      ⟨"".toList, " Environment Variables ", [⟨"HOME".toList, "/root".toList⟩], [], 0⟩
      "ho".toList).2⟩

/-- Claim C2, evaluated on the cited part_003:581-597 copy at the
failing input: its escape turns the term "a.b*" into the pattern
characters `a\$b\$`, which compile to the four literal atoms `a $ b $`
— so the term does NOT match a row containing the exact characters
`a.b*` (here "xa.b*y"), although the claim (shown in the last
conjunct, and satisfied by the current `_.escapeRegExp`
implementation) requires it to; instead it matches the unrelated text
"a$b$". -/
theorem c2_part003_escape_bug :
    escapeRegExpBroken "a.b*".toList = "a\\$b\\$".toList
    ∧ parseRegex (escapeRegExpBroken "a.b*".toList) = some (litToks "a$b$".toList)
    ∧ regexTest (litToks "a$b$".toList) "xa.b*y".toList = false
    ∧ regexTest (litToks "a$b$".toList) "a$b$".toList = true
    ∧ termMatches "a.b*".toList "xa.b*y".toList = true := by
  refine ⟨by decide, by decide, ?_, ?_, by decide⟩
  · rw [regexTest_litToks]; decide
  · rw [regexTest_litToks]; decide
